import Mathlib

/-!
Shallow embedding of the payment reconciliation core of the e-commerce
backend: the Click PREPARE/COMPLETE webhook handlers (ClickCallbackService),
and the invoice / card-token / reconciliation / cancellation operations of
ClickPaymentService, together with the persistent data model
(Order, Payment, Transaction, UserCard).

Conventions of the embedding:
* Monetary amounts are rationals; the JS `0.01` tolerance is `1/100`.
* `deletedAt` is modelled as a boolean `deleted` flag (the claims never
  inspect the timestamp value); timestamps written by the code are taken
  as explicit `now` parameters where a record stores them.
* The MD5 digest is an uninterpreted function carried in `ClickEnv`; the
  numeric-to-string rendering feeding it is an injective rendering of the
  fields, so equality of digest inputs across calls is preserved.
* External provider calls (Click HTTP API) are inputs to the functions:
  each service method takes the provider result it would have observed.
* Database writes are represented as a list of atomic units
  (`List (DB → DB)`): every `prisma.$transaction` block is one element,
  every bare `await prisma.x.y(...)` write is one element.  A crash
  between units leaves the prefix applied; a crash inside a unit leaves
  it unapplied.
-/

inductive OrderStatus
  | PENDING
  | PAID
  | CANCELLED
deriving DecidableEq

inductive PaymentStatus
  | PENDING
  | SUCCESS
  | FAILED
  | CANCELLED
deriving DecidableEq

inductive PaymentMethod
  | CASH
  | CARD
  | CLICK
  | PAYME
deriving DecidableEq

inductive TransactionType
  | PAYMENT
  | REFUND
deriving DecidableEq

inductive TransactionStatus
  | PENDING
  | SUCCESS
  | FAILED
deriving DecidableEq

/-- Rendering of an order status as the string interpolated into
`error_note: Order already ...` by handlePrepare. -/
def OrderStatus.text : OrderStatus → String
  | .PENDING => "PENDING"
  | .PAID => "PAID"
  | .CANCELLED => "CANCELLED"

structure Order where
  id : String
  userId : String
  total : ℚ
  status : OrderStatus
  deleted : Bool
deriving DecidableEq

structure Payment where
  id : String
  orderId : String
  amount : ℚ
  method : PaymentMethod
  status : PaymentStatus
  externalTransactionId : Option String
  deleted : Bool
deriving DecidableEq

structure Transaction where
  userId : String
  orderId : String
  paymentId : Option String
  type : TransactionType
  status : TransactionStatus
  amount : ℚ
  description : String
  metadata : List (String × String)
deriving DecidableEq

structure UserCard where
  id : String
  userId : String
  cardToken : String
  cardNumber : String
  cardNumberMasked : String
  phoneNumber : Option String
  isTemporary : Bool
  isActive : Bool
  lastUsedAt : Option Nat
  deleted : Bool
deriving DecidableEq

/-- The persistent store: the tables touched by the payment core. -/
structure DB where
  orders : List Order
  payments : List Payment
  transactions : List Transaction
  cards : List UserCard
deriving DecidableEq

/-- `prisma.order.findFirst({where: {id, deletedAt: null}})`. -/
def findOrder (db : DB) (oid : String) : Option Order :=
  db.orders.find? (fun o => o.id == oid && !o.deleted)

/-- The `include: { payment: true }` relation: the Payment row keyed by
the order id (no soft-delete filter in the include). -/
def paymentOfOrder (db : DB) (oid : String) : Option Payment :=
  db.payments.find? (fun p => p.orderId == oid)

/-- `prisma.payment.update({where: {id}, data: {status}})`. -/
def setPaymentStatus (db : DB) (pid : String) (st : PaymentStatus) : DB :=
  { db with payments :=
      db.payments.map (fun p => if p.id == pid then { p with status := st } else p) }

/-- `prisma.order.update({where: {id}, data: {status}})`. -/
def setOrderStatus (db : DB) (oid : String) (st : OrderStatus) : DB :=
  { db with orders :=
      db.orders.map (fun o => if o.id == oid then { o with status := st } else o) }

/-- `prisma.transaction.create`. -/
def addTransaction (db : DB) (t : Transaction) : DB :=
  { db with transactions := db.transactions ++ [t] }

/-- Hexadecimal digit test, as used by JS `parseInt(s, 16)`. -/
def isHexDigit (c : Char) : Bool :=
  c.isDigit || ('a' ≤ c && c ≤ 'f') || ('A' ≤ c && c ≤ 'F')

/-- Value of a hexadecimal digit. -/
def hexVal (c : Char) : Nat :=
  if c.isDigit then c.toNat - '0'.toNat
  else if 'a' ≤ c && c ≤ 'f' then c.toNat - 'a'.toNat + 10
  else c.toNat - 'A'.toNat + 10

/-- JS `parseInt(s, 16)`: parse the longest leading run of hex digits,
`none` standing for `NaN` when there is no leading digit. -/
def parseIntHex (s : String) : Option Nat :=
  let ds := s.data.takeWhile isHexDigit
  if ds.isEmpty then none
  else some (ds.foldl (fun acc c => 16 * acc + hexVal c) 0)

/-- JS `parseInt(s)` in base 10, `none` standing for `NaN`. -/
def parseIntDec (s : String) : Option Nat :=
  let ds := s.data.takeWhile Char.isDigit
  if ds.isEmpty then none
  else some (ds.foldl (fun acc c => 10 * acc + (c.toNat - '0'.toNat)) 0)

/-- The JS global replace deleting every dash from a string. -/
def stripDashes (s : String) : String :=
  String.mk (s.data.filter (fun c => c != '-'))

/-- `parseInt(paymentId.replace(dashes, '').substring(0, 10), 16)` — the
deterministic merchant prepare/confirm id derived from a Payment id. -/
def clickMerchantId (pid : String) : Option Nat :=
  parseIntHex (String.mk ((stripDashes pid).data.take 10))

/-- Injective rendering of a rational, standing for the JS number-to-string
coercion inside the signature data (its exact spelling is absorbed into the
uninterpreted digest function). -/
def ratStr (q : ℚ) : String :=
  toString q.num ++ "/" ++ toString q.den

/-- Configuration of ClickCallbackService: the shared secret and the MD5
digest, kept uninterpreted. -/
structure ClickEnv where
  secretKey : String
  md5 : String → String

/-- The concatenation hashed by `verifySignature`:
click_trans_id ++ service_id ++ secret ++ merchant_trans_id ++ amount ++
action ++ sign_time. -/
def signData (env : ClickEnv) (clickTransId serviceId : Int)
    (merchantTransId : String) (amount : ℚ) (action : Int)
    (signTime : String) : String :=
  toString clickTransId ++ toString serviceId ++ env.secretKey ++
    merchantTransId ++ ratStr amount ++ toString action ++ signTime

/-- `ClickCallbackService.verifySignature`. -/
def verifySignature (env : ClickEnv) (clickTransId serviceId : Int)
    (merchantTransId : String) (amount : ℚ) (action : Int)
    (signTime signString : String) : Bool :=
  env.md5 (signData env clickTransId serviceId merchantTransId amount action signTime)
    == signString

structure ClickPrepareRequest where
  click_trans_id : Int
  service_id : Int
  click_paydoc_id : Int
  merchant_trans_id : String
  amount : ℚ
  action : Int
  error : Int
  error_note : String
  sign_time : String
  sign_string : String
deriving DecidableEq

structure ClickCompleteRequest where
  click_trans_id : Int
  service_id : Int
  click_paydoc_id : Int
  merchant_trans_id : String
  merchant_prepare_id : Int
  amount : ℚ
  action : Int
  error : Int
  error_note : String
  sign_time : String
  sign_string : String
deriving DecidableEq

structure ClickPrepareResponse where
  click_trans_id : Int
  merchant_trans_id : String
  merchant_prepare_id : Option Nat
  error : Int
  error_note : String
deriving DecidableEq

structure ClickCompleteResponse where
  click_trans_id : Int
  merchant_trans_id : String
  merchant_confirm_id : Option Nat
  error : Int
  error_note : String
deriving DecidableEq

/-- The signature check exactly as `handlePrepare` invokes it. -/
def prepareVerify (env : ClickEnv) (dto : ClickPrepareRequest) : Bool :=
  verifySignature env dto.click_trans_id dto.service_id dto.merchant_trans_id
    dto.amount dto.action dto.sign_time dto.sign_string

/-- The signature check exactly as `handleComplete` invokes it. -/
def completeVerify (env : ClickEnv) (dto : ClickCompleteRequest) : Bool :=
  verifySignature env dto.click_trans_id dto.service_id dto.merchant_trans_id
    dto.amount dto.action dto.sign_time dto.sign_string

/-- Run a list of atomic write units against the store, in order. -/
def runUnits (db : DB) (us : List (DB → DB)) : DB :=
  us.foldl (fun d u => u d) db

/-- `prisma.payment.upsert({where: {orderId}, update: {status: PENDING,
externalTransactionId}, create: {...}})`; returns the id of the row the
upsert leaves in place. -/
def upsertPaymentByOrder (db : DB) (oid freshId : String) (amount : ℚ)
    (extId : String) : DB :=
  match db.payments.find? (fun p => p.orderId == oid) with
  | some _ =>
      { db with payments := db.payments.map (fun q =>
          if q.orderId == oid then
            { q with status := PaymentStatus.PENDING,
                     externalTransactionId := some extId }
          else q) }
  | none =>
      { db with payments := db.payments ++
          [⟨freshId, oid, amount, PaymentMethod.CLICK, PaymentStatus.PENDING,
            some extId, false⟩] }

/-- The PENDING ledger row written by a successful PREPARE. -/
def prepareTx (order : Order) (pid : String) (dto : ClickPrepareRequest) :
    Transaction :=
  ⟨order.userId, order.id, some pid, TransactionType.PAYMENT,
    TransactionStatus.PENDING, dto.amount, "Click PREPARE request received",
    [("click_trans_id", toString dto.click_trans_id),
     ("click_paydoc_id", toString dto.click_paydoc_id),
     ("action", toString dto.action),
     ("sign_time", dto.sign_time)]⟩

/-- The first write of a successful PREPARE: the Payment upsert. -/
def prepareUpsertUnit (order : Order) (freshPaymentId : String)
    (dto : ClickPrepareRequest) : DB → DB :=
  fun d => upsertPaymentByOrder d order.id freshPaymentId dto.amount
    (toString dto.click_trans_id)

/-- The second write of a successful PREPARE: the PENDING ledger insert. -/
def prepareTxUnit (order : Order) (pid : String) (dto : ClickPrepareRequest) :
    DB → DB :=
  fun d => addTransaction d (prepareTx order pid dto)

/-- `ClickCallbackService.handlePrepare`, decomposed into its atomic write
units plus the protocol response.  The Payment upsert and the Transaction
insert are two separate awaits in the source (no `$transaction` wrapper),
hence two distinct units. -/
def handlePrepareWrites (env : ClickEnv) (db : DB) (freshPaymentId : String)
    (dto : ClickPrepareRequest) :
    List (DB → DB) × ClickPrepareResponse :=
  if prepareVerify env dto = false then
    ([], ⟨dto.click_trans_id, dto.merchant_trans_id, some 0, -1,
      "Invalid signature"⟩)
  else
    match findOrder db dto.merchant_trans_id with
    | none =>
        ([], ⟨dto.click_trans_id, dto.merchant_trans_id, some 0, -5,
          "Order not found"⟩)
    | some order =>
        if order.status ≠ OrderStatus.PENDING then
          ([], ⟨dto.click_trans_id, dto.merchant_trans_id, some 0, -4,
            "Order already " ++ order.status.text⟩)
        else if |order.total - dto.amount| > 1 / 100 then
          ([], ⟨dto.click_trans_id, dto.merchant_trans_id, some 0, -2,
            "Incorrect amount"⟩)
        else
          let payment := paymentOfOrder db order.id
          let pid := match payment with
            | some p => p.id
            | none => freshPaymentId
          let success : List (DB → DB) × ClickPrepareResponse :=
            ([prepareUpsertUnit order freshPaymentId dto,
              prepareTxUnit order pid dto],
             ⟨dto.click_trans_id, dto.merchant_trans_id, clickMerchantId pid,
               0, "Success"⟩)
          match payment with
          | some p =>
              if p.status = PaymentStatus.SUCCESS then
                ([], ⟨dto.click_trans_id, dto.merchant_trans_id,
                  parseIntDec p.id, -4, "Payment already completed"⟩)
              else success
          | none => success

/-- `ClickCallbackService.handlePrepare`: final store and response of a
crash-free run. -/
def handlePrepare (env : ClickEnv) (db : DB) (freshPaymentId : String)
    (dto : ClickPrepareRequest) : DB × ClickPrepareResponse :=
  let r := handlePrepareWrites env db freshPaymentId dto
  (runUnits db r.1, r.2)

/-- The FAILED ledger row written when Click reports a negative error on
COMPLETE. -/
def completeFailTx (order : Order) (p : Payment) (dto : ClickCompleteRequest) :
    Transaction :=
  ⟨order.userId, order.id, some p.id, TransactionType.PAYMENT,
    TransactionStatus.FAILED, dto.amount,
    "Click COMPLETE failed: " ++ dto.error_note,
    [("click_trans_id", toString dto.click_trans_id),
     ("error", toString dto.error),
     ("error_note", dto.error_note)]⟩

/-- The SUCCESS ledger row written by a first successful COMPLETE. -/
def completeSuccessTx (order : Order) (p : Payment)
    (dto : ClickCompleteRequest) : Transaction :=
  ⟨order.userId, order.id, some p.id, TransactionType.PAYMENT,
    TransactionStatus.SUCCESS, dto.amount,
    "Click payment completed successfully",
    [("click_trans_id", toString dto.click_trans_id),
     ("click_paydoc_id", toString dto.click_paydoc_id),
     ("merchant_prepare_id", toString dto.merchant_prepare_id)]⟩

/-- `ClickCallbackService.handleComplete`, decomposed into its atomic write
units plus the protocol response.  Both mutating branches are wrapped in
`prisma.$transaction` in the source, hence each is a single unit. -/
def handleCompleteWrites (env : ClickEnv) (db : DB)
    (dto : ClickCompleteRequest) :
    List (DB → DB) × ClickCompleteResponse :=
  if completeVerify env dto = false then
    ([], ⟨dto.click_trans_id, dto.merchant_trans_id, some 0, -1,
      "Invalid signature"⟩)
  else
    match findOrder db dto.merchant_trans_id with
    | none =>
        ([], ⟨dto.click_trans_id, dto.merchant_trans_id, some 0, -5,
          "Order not found"⟩)
    | some order =>
        match paymentOfOrder db order.id with
        | none =>
            ([], ⟨dto.click_trans_id, dto.merchant_trans_id, some 0, -6,
              "Payment not found"⟩)
        | some p =>
            if p.status = PaymentStatus.SUCCESS then
              ([], ⟨dto.click_trans_id, dto.merchant_trans_id,
                clickMerchantId p.id, 0, "Already paid"⟩)
            else if dto.action ≠ 1 then
              ([], ⟨dto.click_trans_id, dto.merchant_trans_id, some 0, -3,
                "Invalid action"⟩)
            else if dto.error < 0 then
              ([fun d => addTransaction
                  (setPaymentStatus d p.id PaymentStatus.FAILED)
                  (completeFailTx order p dto)],
               ⟨dto.click_trans_id, dto.merchant_trans_id, some 0, dto.error,
                 dto.error_note⟩)
            else
              ([fun d => addTransaction
                  (setOrderStatus
                    (setPaymentStatus d p.id PaymentStatus.SUCCESS)
                    order.id OrderStatus.PAID)
                  (completeSuccessTx order p dto)],
               ⟨dto.click_trans_id, dto.merchant_trans_id,
                 clickMerchantId p.id, 0, "Success"⟩)

/-- `ClickCallbackService.handleComplete`: final store and response of a
crash-free run. -/
def handleComplete (env : ClickEnv) (db : DB) (dto : ClickCompleteRequest) :
    DB × ClickCompleteResponse :=
  let r := handleCompleteWrites env db dto
  (runUnits db r.1, r.2)

/-- Result statuses the Click provider's `checkPayment` can report after
normalization (payment_status 1, -1, -2, other). -/
inductive ProviderCheck
  | pending
  | success
  | failed
  | cancelled
deriving DecidableEq

/-- Structured errors thrown by ClickPaymentService
(NotFoundException / BadRequestException). -/
inductive SvcError
  | notFound (msg : String)
  | badRequest (msg : String)
deriving DecidableEq

/-- `prisma.payment.findFirst({where: {externalTransactionId, method: CLICK}})`
— the lookup used by checkPaymentStatus and checkInvoiceStatus (no
soft-delete filter). -/
def findPaymentByExt (db : DB) (extId : String) : Option Payment :=
  db.payments.find? (fun p =>
    p.externalTransactionId == some extId && p.method == PaymentMethod.CLICK)

/-- `ClickPaymentService.updatePaymentStatus` (private helper): one
`$transaction` setting the Payment status, deriving and setting the Order
status, and rewriting the status of every PAYMENT ledger row of that
Payment. -/
def updatePaymentStatus (db : DB) (pid : String) (newStatus : PaymentStatus)
    (oid : String) : DB :=
  let db1 := setPaymentStatus db pid newStatus
  let orderStatus :=
    if newStatus = PaymentStatus.SUCCESS then OrderStatus.PAID
    else if newStatus = PaymentStatus.FAILED ∨
        newStatus = PaymentStatus.CANCELLED then OrderStatus.CANCELLED
    else OrderStatus.PENDING
  let db2 := setOrderStatus db1 oid orderStatus
  { db2 with transactions := db2.transactions.map (fun t =>
      if t.paymentId == some pid && t.type == TransactionType.PAYMENT then
        { t with status :=
            if newStatus = PaymentStatus.SUCCESS then TransactionStatus.SUCCESS
            else if newStatus = PaymentStatus.FAILED then
              TransactionStatus.FAILED
            else TransactionStatus.PENDING }
      else t) }

/-- `ClickPaymentService.checkPaymentStatus`: reconcile the local Payment
with the provider-reported status (`statusResult` stands for the outcome of
`clickProvider.checkPayment`). -/
def checkPaymentStatus (db : DB) (paymentId : String)
    (statusResult : ProviderCheck) : DB :=
  match findPaymentByExt db paymentId with
  | none => db
  | some p =>
      if statusResult = ProviderCheck.success ∧
          p.status ≠ PaymentStatus.SUCCESS then
        updatePaymentStatus db p.id PaymentStatus.SUCCESS p.orderId
      else if statusResult = ProviderCheck.failed ∧
          p.status ≠ PaymentStatus.FAILED then
        updatePaymentStatus db p.id PaymentStatus.FAILED p.orderId
      else if statusResult = ProviderCheck.cancelled ∧
          p.status ≠ PaymentStatus.CANCELLED then
        updatePaymentStatus db p.id PaymentStatus.CANCELLED p.orderId
      else db

/-- `ClickPaymentService.checkInvoiceStatus`: the provider call outcome is
`(providerSuccess, invoiceStatus)`; on provider failure the method throws
without touching the store, otherwise it force-applies SUCCESS on invoice
status 1 and CANCELLED on invoice status -99. -/
def checkInvoiceStatus (db : DB) (invoiceId : Int) (providerSuccess : Bool)
    (invoiceStatus : Int) : DB × Except SvcError Unit :=
  if providerSuccess = false then
    (db, Except.error (SvcError.badRequest "Failed to check invoice status"))
  else
    match findPaymentByExt db (toString invoiceId) with
    | none => (db, Except.ok ())
    | some p =>
        if invoiceStatus = 1 then
          (updatePaymentStatus db p.id PaymentStatus.SUCCESS p.orderId,
           Except.ok ())
        else if invoiceStatus = -99 then
          (updatePaymentStatus db p.id PaymentStatus.CANCELLED p.orderId,
           Except.ok ())
        else (db, Except.ok ())

/-- The lookup used by cancelPayment: externalTransactionId, method CLICK,
and not soft-deleted. -/
def findPaymentForCancel (db : DB) (extId : String) : Option Payment :=
  db.payments.find? (fun p =>
    p.externalTransactionId == some extId && p.method == PaymentMethod.CLICK
      && !p.deleted)

/-- The userId of the Order a Payment belongs to (the `include: {order}`
relation; empty when the relation is broken). -/
def orderUserId (db : DB) (oid : String) : String :=
  match db.orders.find? (fun o => o.id == oid) with
  | some o => o.userId
  | none => ""

/-- The REFUND ledger row written by a confirmed cancellation. -/
def refundTx (userId : String) (p : Payment) (extId : String) (now : Nat) :
    Transaction :=
  ⟨userId, p.orderId, some p.id, TransactionType.REFUND,
    TransactionStatus.SUCCESS, p.amount,
    "Payment cancelled and refunded via Click",
    [("clickPaymentId", extId), ("cancelledAt", toString now)]⟩

/-- `ClickPaymentService.cancelPayment`, decomposed into atomic write units
plus the thrown-or-returned outcome.  `providerOk` is the boolean result of
`clickProvider.cancelPayment`; the three local writes sit in one
`$transaction`, hence one unit. -/
def cancelPaymentWrites (db : DB) (paymentId : String) (providerOk : Bool)
    (now : Nat) : List (DB → DB) × Except SvcError Unit :=
  match findPaymentForCancel db paymentId with
  | none => ([], Except.error (SvcError.notFound "Payment not found"))
  | some p =>
      if p.status ≠ PaymentStatus.SUCCESS then
        ([], Except.error
          (SvcError.badRequest "Can only cancel successful payments"))
      else if providerOk = false then
        ([], Except.error (SvcError.badRequest
          "Failed to cancel payment. Check Click conditions."))
      else
        ([fun d =>
            let d1 := { d with payments := d.payments.map (fun q =>
              if q.id == p.id then
                { q with status := PaymentStatus.CANCELLED, deleted := true }
              else q) }
            let d2 := setOrderStatus d1 p.orderId OrderStatus.CANCELLED
            addTransaction d2
              (refundTx (orderUserId db p.orderId) p paymentId now)],
         Except.ok ())

/-- `ClickPaymentService.cancelPayment`: final store and outcome of a
crash-free run. -/
def cancelPayment (db : DB) (paymentId : String) (providerOk : Bool)
    (now : Nat) : DB × Except SvcError Unit :=
  let r := cancelPaymentWrites db paymentId providerOk now
  (runUnits db r.1, r.2)

/-- Outcome of `clickProvider.requestCardToken`. -/
structure TokenResult where
  success : Bool
  cardToken : Option String
  phoneNumber : Option String
deriving DecidableEq

/-- The last four characters of a card number (JS `slice(-4)`). -/
def lastFour (s : String) : String :=
  String.mk (s.data.drop (s.data.length - 4))

/-- `ClickPaymentService.requestCardToken`: on provider success with a
token, records a UserCard row that is inactive until verification. -/
def requestCardToken (db : DB) (userId cardNumber : String)
    (temporary : Bool) (tokenResult : TokenResult) (freshCardId : String) :
    DB × Except SvcError String :=
  if tokenResult.success = false then
    (db, Except.error (SvcError.badRequest "Failed to request card token"))
  else
    match tokenResult.cardToken with
    | none =>
        (db, Except.error
          (SvcError.badRequest "Card token not received from Click"))
    | some tok =>
        ({ db with cards := db.cards ++
            [⟨freshCardId, userId, tok, "", "****" ++ lastFour cardNumber,
              tokenResult.phoneNumber, temporary, false, none, false⟩] },
         Except.ok tok)

/-- `ClickPaymentService.verifyCardToken`: on provider confirmation of the
SMS code, stores the full card number and activates the card. -/
def verifyCardToken (db : DB) (userId tok : String) (verifySuccess : Bool)
    (providerCardNumber : Option String) : DB × Except SvcError Unit :=
  if verifySuccess = false then
    (db, Except.error (SvcError.badRequest "Failed to verify card token"))
  else
    match providerCardNumber with
    | none =>
        (db, Except.error
          (SvcError.badRequest "Card number not received from Click"))
    | some cn =>
        match db.cards.find? (fun c =>
            c.userId == userId && c.cardToken == tok && !c.deleted) with
        | none => (db, Except.error (SvcError.notFound "Card token not found"))
        | some card =>
            ({ db with cards := db.cards.map (fun c =>
                if c.id == card.id then
                  { c with cardNumber := cn, isActive := true }
                else c) },
             Except.ok ())

/-- Outcome of `clickProvider.paymentWithToken`. -/
structure TokenPayResult where
  success : Bool
  paymentStatus : Int
  paymentId : Option Int
deriving DecidableEq

/-- The lookup gating paymentWithToken: an active, non-deleted card with
this token owned by the calling user. -/
def findActiveCard (db : DB) (userId tok : String) : Option UserCard :=
  db.cards.find? (fun c =>
    c.userId == userId && c.cardToken == tok && c.isActive && !c.deleted)

/-- `ClickPaymentService.paymentWithToken`: validates order, card and
provider outcome, then in one `$transaction` creates the Payment and its
PAYMENT ledger row, stamps the card, and flips the Order to PAID when the
provider already confirmed. -/
def paymentWithToken (db : DB) (userId orderId tok : String) (amount : ℚ)
    (payResult : TokenPayResult) (freshPaymentId : String) (now : Nat) :
    DB × Except SvcError Unit :=
  match db.orders.find? (fun o =>
      o.id == orderId && o.userId == userId && !o.deleted) with
  | none => (db, Except.error (SvcError.notFound "Order not found"))
  | some order =>
      if (paymentOfOrder db order.id).isSome then
        (db, Except.error
          (SvcError.badRequest "Payment already exists for this order"))
      else if order.status ≠ OrderStatus.PENDING then
        (db, Except.error (SvcError.badRequest
          ("Order status is " ++ order.status.text ++
            ", cannot process payment")))
      else
        match findActiveCard db userId tok with
        | none =>
            (db, Except.error
              (SvcError.badRequest "Card token not found or not verified"))
        | some userCard =>
            if payResult.success = false then
              (db, Except.error (SvcError.badRequest "Payment failed"))
            else
              let st := if payResult.paymentStatus = 1 then
                  PaymentStatus.SUCCESS
                else PaymentStatus.PENDING
              let d1 := { db with payments := db.payments ++
                [⟨freshPaymentId, orderId, amount, PaymentMethod.CLICK, st,
                  payResult.paymentId.map toString, false⟩] }
              let d2 := addTransaction d1
                ⟨userId, order.id, some freshPaymentId,
                  TransactionType.PAYMENT,
                  (if payResult.paymentStatus = 1 then TransactionStatus.SUCCESS
                   else TransactionStatus.PENDING),
                  amount, "Payment via Click card token",
                  [("paymentId",
                     toString (payResult.paymentId.map toString)),
                   ("cardToken", tok),
                   ("cardNumber", userCard.cardNumber),
                   ("cardNumberMasked", userCard.cardNumberMasked)]⟩
              let d3 := { d2 with cards := d2.cards.map (fun c =>
                if c.id == userCard.id then { c with lastUsedAt := some now }
                else c) }
              let d4 := if payResult.paymentStatus = 1 then
                  setOrderStatus d3 orderId OrderStatus.PAID
                else d3
              (d4, Except.ok ())

/-- The single atomic unit executed by a first successful COMPLETE. -/
def completeSuccessUnit (order : Order) (p : Payment)
    (dto : ClickCompleteRequest) : DB → DB :=
  fun d => addTransaction
    (setOrderStatus (setPaymentStatus d p.id PaymentStatus.SUCCESS)
      order.id OrderStatus.PAID)
    (completeSuccessTx order p dto)

/-- The explicit final store of a first successful COMPLETE. -/
def completeSuccessDB (db : DB) (order : Order) (p : Payment)
    (dto : ClickCompleteRequest) : DB :=
  { db with
    payments := db.payments.map (fun q =>
      if q.id == p.id then { q with status := PaymentStatus.SUCCESS } else q),
    orders := db.orders.map (fun o =>
      if o.id == order.id then { o with status := OrderStatus.PAID } else o),
    transactions := db.transactions ++ [completeSuccessTx order p dto] }

section Helpers

/-- find? commutes with a map that does not disturb the predicate. -/
theorem find?_map_pres {α : Type} (f : α → α) (q : α → Bool) (l : List α)
    (h : ∀ a, q (f a) = q a) :
    (l.map f).find? q = (l.find? q).map f := by
  induction l with
  | nil => rfl
  | cons a t ih =>
      by_cases hqa : q a = true
      · rw [List.map_cons, List.find?_cons_of_pos _ (by rw [h a]; exact hqa),
          List.find?_cons_of_pos _ hqa]
        rfl
      · rw [List.map_cons,
          List.find?_cons_of_neg _ (by rw [h a]; exact hqa),
          List.find?_cons_of_neg _ hqa, ih]

theorem handleCompleteWrites_success_eq (env : ClickEnv) (db : DB)
    (dto : ClickCompleteRequest) (order : Order) (p : Payment)
    (hsig : completeVerify env dto = true)
    (hord : findOrder db dto.merchant_trans_id = some order)
    (hpay : paymentOfOrder db order.id = some p)
    (hns : p.status ≠ PaymentStatus.SUCCESS)
    (hact : dto.action = 1)
    (herr : 0 ≤ dto.error) :
    handleCompleteWrites env db dto =
      ([completeSuccessUnit order p dto],
       ⟨dto.click_trans_id, dto.merchant_trans_id, clickMerchantId p.id, 0,
         "Success"⟩) := by
  have herr2 : ¬ dto.error < 0 := not_lt.mpr herr
  unfold handleCompleteWrites
  simp only [hsig, hord, hpay, hact]
  simp [hns, herr2]
  rfl

theorem handleCompleteWrites_already_eq (env : ClickEnv) (db : DB)
    (dto : ClickCompleteRequest) (order : Order) (p : Payment)
    (hsig : completeVerify env dto = true)
    (hord : findOrder db dto.merchant_trans_id = some order)
    (hpay : paymentOfOrder db order.id = some p)
    (hs : p.status = PaymentStatus.SUCCESS) :
    handleCompleteWrites env db dto =
      ([], ⟨dto.click_trans_id, dto.merchant_trans_id, clickMerchantId p.id,
        0, "Already paid"⟩) := by
  unfold handleCompleteWrites
  simp only [hsig, hord, hpay]
  simp [hs]

theorem handleComplete_success_run (env : ClickEnv) (db : DB)
    (dto : ClickCompleteRequest) (order : Order) (p : Payment)
    (hsig : completeVerify env dto = true)
    (hord : findOrder db dto.merchant_trans_id = some order)
    (hpay : paymentOfOrder db order.id = some p)
    (hns : p.status ≠ PaymentStatus.SUCCESS)
    (hact : dto.action = 1)
    (herr : 0 ≤ dto.error) :
    handleComplete env db dto =
      (completeSuccessDB db order p dto,
       ⟨dto.click_trans_id, dto.merchant_trans_id, clickMerchantId p.id, 0,
         "Success"⟩) := by
  unfold handleComplete
  rw [handleCompleteWrites_success_eq env db dto order p hsig hord hpay hns
    hact herr]
  rfl

end Helpers

/-- C1: a COMPLETE request with a valid signature, action = 1 and a
non-negative provider error code, on an existing non-deleted Order whose
Payment exists and is not yet SUCCESS, answers error = 0 and, in one atomic
unit (all three writes or none), sets the Payment to SUCCESS, the Order to
PAID, and appends exactly one PAYMENT/SUCCESS ledger Transaction. -/
theorem click_complete_first_success_atomic (env : ClickEnv) (db : DB)
    (dto : ClickCompleteRequest) (order : Order) (p : Payment)
    (hsig : completeVerify env dto = true)
    (hord : findOrder db dto.merchant_trans_id = some order)
    (hpay : paymentOfOrder db order.id = some p)
    (hns : p.status ≠ PaymentStatus.SUCCESS)
    (hact : dto.action = 1)
    (herr : 0 ≤ dto.error) :
    (handleCompleteWrites env db dto).2.error = 0 ∧
    (handleCompleteWrites env db dto).1.length = 1 ∧
    (∀ k, runUnits db ((handleCompleteWrites env db dto).1.take k) = db ∨
      runUnits db ((handleCompleteWrites env db dto).1.take k) =
        (handleComplete env db dto).1) ∧
    (handleComplete env db dto).1 =
      { db with
        payments := db.payments.map (fun q =>
          if q.id == p.id then { q with status := PaymentStatus.SUCCESS }
          else q),
        orders := db.orders.map (fun o =>
          if o.id == order.id then { o with status := OrderStatus.PAID }
          else o),
        transactions := db.transactions ++ [completeSuccessTx order p dto] } ∧
    (completeSuccessTx order p dto).type = TransactionType.PAYMENT ∧
    (completeSuccessTx order p dto).status = TransactionStatus.SUCCESS := by
  have hw := handleCompleteWrites_success_eq env db dto order p hsig hord hpay
    hns hact herr
  have hrun := handleComplete_success_run env db dto order p hsig hord hpay
    hns hact herr
  refine ⟨by rw [hw], by rw [hw]; rfl, ?_, by rw [hrun]; rfl, rfl, rfl⟩
  intro k
  match k with
  | 0 => exact Or.inl rfl
  | Nat.succ k =>
      right
      rw [hw, hrun]
      simp only [List.take_succ_cons, List.take_nil]
      rfl

/-- Witness for C1 at a concrete store and request. -/
theorem click_complete_first_success_atomic_witness :
    (handleCompleteWrites ⟨"k", fun _ => "s"⟩
      ⟨[⟨"o1", "u1", 100, OrderStatus.PENDING, false⟩],
       [⟨"ab", "o1", 100, PaymentMethod.CLICK, PaymentStatus.PENDING,
         some "7", false⟩], [], []⟩
      ⟨7, 2, 3, "o1", 5, 100, 1, 0, "", "t", "s"⟩).2.error = 0 :=
  (click_complete_first_success_atomic ⟨"k", fun _ => "s"⟩
    ⟨[⟨"o1", "u1", 100, OrderStatus.PENDING, false⟩],
     [⟨"ab", "o1", 100, PaymentMethod.CLICK, PaymentStatus.PENDING,
       some "7", false⟩], [], []⟩
    ⟨7, 2, 3, "o1", 5, 100, 1, 0, "", "t", "s"⟩
    ⟨"o1", "u1", 100, OrderStatus.PENDING, false⟩
    ⟨"ab", "o1", 100, PaymentMethod.CLICK, PaymentStatus.PENDING,
      some "7", false⟩
    (by decide) (by decide) (by decide) (by decide) (by decide)
    (by decide)).1

section IdempotenceHelpers

theorem findOrder_after_success (db : DB) (order : Order) (p : Payment)
    (dto : ClickCompleteRequest) (mid : String)
    (hord : findOrder db mid = some order) :
    findOrder (completeSuccessDB db order p dto) mid =
      some { order with status := OrderStatus.PAID } := by
  have hord2 : db.orders.find? (fun o => o.id == mid && !o.deleted) =
      some order := hord
  show (db.orders.map _).find? _ = _
  rw [find?_map_pres _ _ _ (fun o => by
    by_cases ho : (o.id == order.id) = true <;> simp [ho])]
  rw [hord2]
  simp

theorem paymentOfOrder_after_success (db : DB) (order : Order) (p : Payment)
    (dto : ClickCompleteRequest) (oid : String)
    (hpay : paymentOfOrder db oid = some p) :
    paymentOfOrder (completeSuccessDB db order p dto) oid =
      some { p with status := PaymentStatus.SUCCESS } := by
  have hpay2 : db.payments.find? (fun q => q.orderId == oid) = some p := hpay
  show (db.payments.map _).find? _ = _
  rw [find?_map_pres _ _ _ (fun q => by
    by_cases hq : (q.id == p.id) = true <;> simp [hq])]
  rw [hpay2]
  simp

end IdempotenceHelpers

/-- C2: when the Order's Payment is already SUCCESS, COMPLETE short-circuits
with error = 0, the confirm id derived from the Payment id, and no writes;
consequently a second identical COMPLETE after a first successful completion
leaves the store unchanged and returns the same confirm id. -/
theorem click_complete_idempotent :
    (∀ (env : ClickEnv) (db : DB) (dto : ClickCompleteRequest)
        (order : Order) (p : Payment),
      completeVerify env dto = true →
      findOrder db dto.merchant_trans_id = some order →
      paymentOfOrder db order.id = some p →
      p.status = PaymentStatus.SUCCESS →
      handleComplete env db dto =
        (db, ⟨dto.click_trans_id, dto.merchant_trans_id,
          clickMerchantId p.id, 0, "Already paid"⟩)) ∧
    (∀ (env : ClickEnv) (db : DB) (dto : ClickCompleteRequest)
        (order : Order) (p : Payment),
      completeVerify env dto = true →
      findOrder db dto.merchant_trans_id = some order →
      paymentOfOrder db order.id = some p →
      p.status ≠ PaymentStatus.SUCCESS → dto.action = 1 → 0 ≤ dto.error →
      handleComplete env (handleComplete env db dto).1 dto =
        ((handleComplete env db dto).1,
         ⟨dto.click_trans_id, dto.merchant_trans_id, clickMerchantId p.id,
           0, "Already paid"⟩) ∧
      (handleComplete env db dto).2.merchant_confirm_id =
        clickMerchantId p.id) := by
  constructor
  · intro env db dto order p hsig hord hpay hs
    have hw := handleCompleteWrites_already_eq env db dto order p hsig hord
      hpay hs
    unfold handleComplete
    rw [hw]
    rfl
  · intro env db dto order p hsig hord hpay hns hact herr
    have hrun := handleComplete_success_run env db dto order p hsig hord hpay
      hns hact herr
    have hford := findOrder_after_success db order p dto dto.merchant_trans_id
      hord
    have hfpay := paymentOfOrder_after_success db order p dto order.id hpay
    have h2 := handleCompleteWrites_already_eq env
      (completeSuccessDB db order p dto) dto
      { order with status := OrderStatus.PAID }
      { p with status := PaymentStatus.SUCCESS }
      hsig hford hfpay rfl
    have hsecond : handleComplete env (completeSuccessDB db order p dto) dto =
        (completeSuccessDB db order p dto,
         ⟨dto.click_trans_id, dto.merchant_trans_id, clickMerchantId p.id, 0,
           "Already paid"⟩) := by
      unfold handleComplete
      rw [h2]
      rfl
    constructor
    · rw [hrun]
      exact hsecond
    · rw [hrun]

/-- Witness for C2 at a concrete store and request: both the short-circuit
branch and the replay consequence, instantiated. -/
theorem click_complete_idempotent_witness :
    handleComplete ⟨"k", fun _ => "s"⟩
      ⟨[⟨"o1", "u1", 100, OrderStatus.PAID, false⟩],
       [⟨"ab", "o1", 100, PaymentMethod.CLICK, PaymentStatus.SUCCESS,
         some "7", false⟩], [], []⟩
      ⟨7, 2, 3, "o1", 5, 100, 1, 0, "", "t", "s"⟩ =
      (⟨[⟨"o1", "u1", 100, OrderStatus.PAID, false⟩],
        [⟨"ab", "o1", 100, PaymentMethod.CLICK, PaymentStatus.SUCCESS,
          some "7", false⟩], [], []⟩,
       ⟨7, "o1", clickMerchantId "ab", 0, "Already paid"⟩) ∧
    (handleComplete ⟨"k", fun _ => "s"⟩
      (handleComplete ⟨"k", fun _ => "s"⟩
        ⟨[⟨"o2", "u1", 100, OrderStatus.PENDING, false⟩],
         [⟨"cd", "o2", 100, PaymentMethod.CLICK, PaymentStatus.PENDING,
           some "7", false⟩], [], []⟩
        ⟨7, 2, 3, "o2", 5, 100, 1, 0, "", "t", "s"⟩).1
      ⟨7, 2, 3, "o2", 5, 100, 1, 0, "", "t", "s"⟩).2.merchant_confirm_id =
      clickMerchantId "cd" := by
  constructor
  · exact click_complete_idempotent.1 ⟨"k", fun _ => "s"⟩
      ⟨[⟨"o1", "u1", 100, OrderStatus.PAID, false⟩],
       [⟨"ab", "o1", 100, PaymentMethod.CLICK, PaymentStatus.SUCCESS,
         some "7", false⟩], [], []⟩
      ⟨7, 2, 3, "o1", 5, 100, 1, 0, "", "t", "s"⟩
      ⟨"o1", "u1", 100, OrderStatus.PAID, false⟩
      ⟨"ab", "o1", 100, PaymentMethod.CLICK, PaymentStatus.SUCCESS,
        some "7", false⟩
      (by decide) (by decide) (by decide) (by decide)
  · have h := click_complete_idempotent.2 ⟨"k", fun _ => "s"⟩
      ⟨[⟨"o2", "u1", 100, OrderStatus.PENDING, false⟩],
       [⟨"cd", "o2", 100, PaymentMethod.CLICK, PaymentStatus.PENDING,
         some "7", false⟩], [], []⟩
      ⟨7, 2, 3, "o2", 5, 100, 1, 0, "", "t", "s"⟩
      ⟨"o2", "u1", 100, OrderStatus.PENDING, false⟩
      ⟨"cd", "o2", 100, PaymentMethod.CLICK, PaymentStatus.PENDING,
        some "7", false⟩
      (by decide) (by decide) (by decide) (by decide) (by decide) (by decide)
    rw [h.1]

section PrepareHelpers

theorem handlePrepare_sig_reject (env : ClickEnv) (db : DB) (fid : String)
    (dto : ClickPrepareRequest) (h : prepareVerify env dto = false) :
    handlePrepare env db fid dto =
      (db, ⟨dto.click_trans_id, dto.merchant_trans_id, some 0, -1,
        "Invalid signature"⟩) := by
  unfold handlePrepare handlePrepareWrites
  rw [h]
  rfl

theorem handlePrepare_no_order (env : ClickEnv) (db : DB) (fid : String)
    (dto : ClickPrepareRequest) (hsig : prepareVerify env dto = true)
    (hord : findOrder db dto.merchant_trans_id = none) :
    handlePrepare env db fid dto =
      (db, ⟨dto.click_trans_id, dto.merchant_trans_id, some 0, -5,
        "Order not found"⟩) := by
  unfold handlePrepare handlePrepareWrites
  simp only [hsig, hord]
  rfl

theorem handlePrepare_bad_status (env : ClickEnv) (db : DB) (fid : String)
    (dto : ClickPrepareRequest) (order : Order)
    (hsig : prepareVerify env dto = true)
    (hord : findOrder db dto.merchant_trans_id = some order)
    (hst : order.status ≠ OrderStatus.PENDING) :
    handlePrepare env db fid dto =
      (db, ⟨dto.click_trans_id, dto.merchant_trans_id, some 0, -4,
        "Order already " ++ order.status.text⟩) := by
  unfold handlePrepare handlePrepareWrites
  simp only [hsig, hord]
  simp [hst]
  rfl

theorem handlePrepare_bad_amount (env : ClickEnv) (db : DB) (fid : String)
    (dto : ClickPrepareRequest) (order : Order)
    (hsig : prepareVerify env dto = true)
    (hord : findOrder db dto.merchant_trans_id = some order)
    (hst : order.status = OrderStatus.PENDING)
    (hamt : |order.total - dto.amount| > 1 / 100) :
    handlePrepare env db fid dto =
      (db, ⟨dto.click_trans_id, dto.merchant_trans_id, some 0, -2,
        "Incorrect amount"⟩) := by
  have hamt2 : (100 : ℚ)⁻¹ < |order.total - dto.amount| := by simpa using hamt
  unfold handlePrepare handlePrepareWrites
  simp only [hsig, hord]
  simp [hst, hamt2]
  rfl

theorem handlePrepare_already_paid (env : ClickEnv) (db : DB) (fid : String)
    (dto : ClickPrepareRequest) (order : Order) (p : Payment)
    (hsig : prepareVerify env dto = true)
    (hord : findOrder db dto.merchant_trans_id = some order)
    (hst : order.status = OrderStatus.PENDING)
    (hamt : ¬ |order.total - dto.amount| > 1 / 100)
    (hpay : paymentOfOrder db order.id = some p)
    (hps : p.status = PaymentStatus.SUCCESS) :
    handlePrepare env db fid dto =
      (db, ⟨dto.click_trans_id, dto.merchant_trans_id, parseIntDec p.id, -4,
        "Payment already completed"⟩) := by
  have hamt2 : ¬ (100 : ℚ)⁻¹ < |order.total - dto.amount| := by
    simpa using hamt
  unfold handlePrepare handlePrepareWrites
  simp only [hsig, hord, hpay]
  simp [hst, hamt2, hps]
  rfl

theorem handlePrepareWrites_success_existing (env : ClickEnv) (db : DB)
    (fid : String) (dto : ClickPrepareRequest) (order : Order) (p : Payment)
    (hsig : prepareVerify env dto = true)
    (hord : findOrder db dto.merchant_trans_id = some order)
    (hst : order.status = OrderStatus.PENDING)
    (hamt : ¬ |order.total - dto.amount| > 1 / 100)
    (hpay : paymentOfOrder db order.id = some p)
    (hps : p.status ≠ PaymentStatus.SUCCESS) :
    handlePrepareWrites env db fid dto =
      ([prepareUpsertUnit order fid dto, prepareTxUnit order p.id dto],
       ⟨dto.click_trans_id, dto.merchant_trans_id, clickMerchantId p.id, 0,
         "Success"⟩) := by
  have hamt2 : ¬ (100 : ℚ)⁻¹ < |order.total - dto.amount| := by
    simpa using hamt
  unfold handlePrepareWrites
  simp only [hsig, hord, hpay]
  simp [hst, hamt2, hps]

theorem handlePrepareWrites_success_fresh (env : ClickEnv) (db : DB)
    (fid : String) (dto : ClickPrepareRequest) (order : Order)
    (hsig : prepareVerify env dto = true)
    (hord : findOrder db dto.merchant_trans_id = some order)
    (hst : order.status = OrderStatus.PENDING)
    (hamt : ¬ |order.total - dto.amount| > 1 / 100)
    (hpay : paymentOfOrder db order.id = none) :
    handlePrepareWrites env db fid dto =
      ([prepareUpsertUnit order fid dto, prepareTxUnit order fid dto],
       ⟨dto.click_trans_id, dto.merchant_trans_id, clickMerchantId fid, 0,
         "Success"⟩) := by
  have hamt2 : ¬ (100 : ℚ)⁻¹ < |order.total - dto.amount| := by
    simpa using hamt
  unfold handlePrepareWrites
  simp only [hsig, hord, hpay]
  simp [hst, hamt2]

theorem handleComplete_sig_reject (env : ClickEnv) (db : DB)
    (dto : ClickCompleteRequest) (h : completeVerify env dto = false) :
    handleComplete env db dto =
      (db, ⟨dto.click_trans_id, dto.merchant_trans_id, some 0, -1,
        "Invalid signature"⟩) := by
  unfold handleComplete handleCompleteWrites
  rw [h]
  rfl

end PrepareHelpers

/-- C7: a PREPARE or COMPLETE request whose sign_string differs from the
digest of the fixed-order concatenation is answered with error -1 and no
database writes; in particular mutating sign_string on an otherwise valid
request (any different string, hence any single-character mutation) yields
error -1 with the store untouched. -/
theorem click_signature_rejection :
    (∀ (env : ClickEnv) (db : DB) (fid : String) (dto : ClickPrepareRequest),
      prepareVerify env dto = false →
      handlePrepare env db fid dto =
        (db, ⟨dto.click_trans_id, dto.merchant_trans_id, some 0, -1,
          "Invalid signature"⟩)) ∧
    (∀ (env : ClickEnv) (db : DB) (dto : ClickCompleteRequest),
      completeVerify env dto = false →
      handleComplete env db dto =
        (db, ⟨dto.click_trans_id, dto.merchant_trans_id, some 0, -1,
          "Invalid signature"⟩)) ∧
    (∀ (env : ClickEnv) (db : DB) (fid : String) (dto : ClickPrepareRequest)
        (s2 : String),
      prepareVerify env dto = true → s2 ≠ dto.sign_string →
      handlePrepare env db fid { dto with sign_string := s2 } =
        (db, ⟨dto.click_trans_id, dto.merchant_trans_id, some 0, -1,
          "Invalid signature"⟩)) ∧
    (∀ (env : ClickEnv) (db : DB) (dto : ClickCompleteRequest) (s2 : String),
      completeVerify env dto = true → s2 ≠ dto.sign_string →
      handleComplete env db { dto with sign_string := s2 } =
        (db, ⟨dto.click_trans_id, dto.merchant_trans_id, some 0, -1,
          "Invalid signature"⟩)) := by
  refine ⟨fun env db fid dto h => handlePrepare_sig_reject env db fid dto h,
    fun env db dto h => handleComplete_sig_reject env db dto h, ?_, ?_⟩
  · intro env db fid dto s2 hv hne
    have hmd5 : env.md5 (signData env dto.click_trans_id dto.service_id
        dto.merchant_trans_id dto.amount dto.action dto.sign_time) =
        dto.sign_string := by
      unfold prepareVerify verifySignature at hv
      exact eq_of_beq hv
    have hfalse : prepareVerify env { dto with sign_string := s2 } = false := by
      show (env.md5 (signData env dto.click_trans_id dto.service_id
        dto.merchant_trans_id dto.amount dto.action dto.sign_time) == s2) =
        false
      rw [hmd5]
      exact beq_eq_false_iff_ne.mpr (Ne.symm hne)
    exact handlePrepare_sig_reject env db fid { dto with sign_string := s2 }
      hfalse
  · intro env db dto s2 hv hne
    have hmd5 : env.md5 (signData env dto.click_trans_id dto.service_id
        dto.merchant_trans_id dto.amount dto.action dto.sign_time) =
        dto.sign_string := by
      unfold completeVerify verifySignature at hv
      exact eq_of_beq hv
    have hfalse : completeVerify env { dto with sign_string := s2 } =
        false := by
      show (env.md5 (signData env dto.click_trans_id dto.service_id
        dto.merchant_trans_id dto.amount dto.action dto.sign_time) == s2) =
        false
      rw [hmd5]
      exact beq_eq_false_iff_ne.mpr (Ne.symm hne)
    exact handleComplete_sig_reject env db { dto with sign_string := s2 }
      hfalse

/-- Witness for C7 at a concrete store and requests. -/
theorem click_signature_rejection_witness :
    (handlePrepare ⟨"k", fun _ => "s"⟩
      ⟨[⟨"o1", "u1", 100, OrderStatus.PENDING, false⟩], [], [], []⟩ "f1"
      ⟨7, 2, 3, "o1", 100, 0, 0, "", "t", "x"⟩).2.error = -1 ∧
    (handleComplete ⟨"k", fun _ => "s"⟩
      ⟨[⟨"o1", "u1", 100, OrderStatus.PENDING, false⟩], [], [], []⟩
      ⟨7, 2, 3, "o1", 5, 100, 1, 0, "", "t", "x"⟩).2.error = -1 ∧
    (handlePrepare ⟨"k", fun _ => "s"⟩
      ⟨[⟨"o1", "u1", 100, OrderStatus.PENDING, false⟩], [], [], []⟩ "f1"
      { (⟨7, 2, 3, "o1", 100, 0, 0, "", "t", "s"⟩ : ClickPrepareRequest) with
          sign_string := "z" }).2.error = -1 ∧
    (handleComplete ⟨"k", fun _ => "s"⟩
      ⟨[⟨"o1", "u1", 100, OrderStatus.PENDING, false⟩], [], [], []⟩
      { (⟨7, 2, 3, "o1", 5, 100, 1, 0, "", "t", "s"⟩ :
          ClickCompleteRequest) with sign_string := "z" }).2.error = -1 := by
  refine ⟨?_, ?_, ?_, ?_⟩
  · rw [click_signature_rejection.1 ⟨"k", fun _ => "s"⟩
      ⟨[⟨"o1", "u1", 100, OrderStatus.PENDING, false⟩], [], [], []⟩ "f1"
      ⟨7, 2, 3, "o1", 100, 0, 0, "", "t", "x"⟩ (by decide)]
  · rw [click_signature_rejection.2.1 ⟨"k", fun _ => "s"⟩
      ⟨[⟨"o1", "u1", 100, OrderStatus.PENDING, false⟩], [], [], []⟩
      ⟨7, 2, 3, "o1", 5, 100, 1, 0, "", "t", "x"⟩ (by decide)]
  · rw [click_signature_rejection.2.2.1 ⟨"k", fun _ => "s"⟩
      ⟨[⟨"o1", "u1", 100, OrderStatus.PENDING, false⟩], [], [], []⟩ "f1"
      ⟨7, 2, 3, "o1", 100, 0, 0, "", "t", "s"⟩ "z" (by decide) (by decide)]
  · rw [click_signature_rejection.2.2.2 ⟨"k", fun _ => "s"⟩
      ⟨[⟨"o1", "u1", 100, OrderStatus.PENDING, false⟩], [], [], []⟩
      ⟨7, 2, 3, "o1", 5, 100, 1, 0, "", "t", "s"⟩ "z" (by decide) (by decide)]

/-- C8: handlePrepare rejects, before any state change, with the distinct
codes -1 (bad signature), -5 (order missing or soft-deleted), -4 (order not
PENDING), -2 (amount off by more than 0.01), and -4 (payment already
SUCCESS), each rejection leaving the store unchanged. -/
theorem click_prepare_rejection_codes :
    (∀ (env : ClickEnv) (db : DB) (fid : String) (dto : ClickPrepareRequest),
      prepareVerify env dto = false →
      handlePrepare env db fid dto =
        (db, ⟨dto.click_trans_id, dto.merchant_trans_id, some 0, -1,
          "Invalid signature"⟩)) ∧
    (∀ (env : ClickEnv) (db : DB) (fid : String) (dto : ClickPrepareRequest),
      prepareVerify env dto = true →
      findOrder db dto.merchant_trans_id = none →
      handlePrepare env db fid dto =
        (db, ⟨dto.click_trans_id, dto.merchant_trans_id, some 0, -5,
          "Order not found"⟩)) ∧
    (∀ (env : ClickEnv) (db : DB) (fid : String) (dto : ClickPrepareRequest)
        (order : Order),
      prepareVerify env dto = true →
      findOrder db dto.merchant_trans_id = some order →
      order.status ≠ OrderStatus.PENDING →
      handlePrepare env db fid dto =
        (db, ⟨dto.click_trans_id, dto.merchant_trans_id, some 0, -4,
          "Order already " ++ order.status.text⟩)) ∧
    (∀ (env : ClickEnv) (db : DB) (fid : String) (dto : ClickPrepareRequest)
        (order : Order),
      prepareVerify env dto = true →
      findOrder db dto.merchant_trans_id = some order →
      order.status = OrderStatus.PENDING →
      |order.total - dto.amount| > 1 / 100 →
      handlePrepare env db fid dto =
        (db, ⟨dto.click_trans_id, dto.merchant_trans_id, some 0, -2,
          "Incorrect amount"⟩)) ∧
    (∀ (env : ClickEnv) (db : DB) (fid : String) (dto : ClickPrepareRequest)
        (order : Order) (p : Payment),
      prepareVerify env dto = true →
      findOrder db dto.merchant_trans_id = some order →
      order.status = OrderStatus.PENDING →
      ¬ |order.total - dto.amount| > 1 / 100 →
      paymentOfOrder db order.id = some p →
      p.status = PaymentStatus.SUCCESS →
      handlePrepare env db fid dto =
        (db, ⟨dto.click_trans_id, dto.merchant_trans_id, parseIntDec p.id,
          -4, "Payment already completed"⟩)) :=
  ⟨fun env db fid dto h => handlePrepare_sig_reject env db fid dto h,
   fun env db fid dto h1 h2 => handlePrepare_no_order env db fid dto h1 h2,
   fun env db fid dto order h1 h2 h3 =>
     handlePrepare_bad_status env db fid dto order h1 h2 h3,
   fun env db fid dto order h1 h2 h3 h4 =>
     handlePrepare_bad_amount env db fid dto order h1 h2 h3 h4,
   fun env db fid dto order p h1 h2 h3 h4 h5 h6 =>
     handlePrepare_already_paid env db fid dto order p h1 h2 h3 h4 h5 h6⟩

/-- Witness for C8: all five rejection branches exercised on a concrete
store. -/
theorem click_prepare_rejection_codes_witness :
    (handlePrepare ⟨"k", fun _ => "s"⟩
      ⟨[⟨"o3", "u1", 100, OrderStatus.PAID, false⟩,
        ⟨"o4", "u1", 100, OrderStatus.PENDING, false⟩,
        ⟨"o5", "u1", 100, OrderStatus.PENDING, false⟩],
       [⟨"p5", "o5", 100, PaymentMethod.CLICK, PaymentStatus.SUCCESS,
         some "9", false⟩], [], []⟩ "f1"
      ⟨7, 2, 3, "o4", 100, 0, 0, "", "t", "x"⟩).2.error = -1 ∧
    (handlePrepare ⟨"k", fun _ => "s"⟩
      ⟨[⟨"o3", "u1", 100, OrderStatus.PAID, false⟩,
        ⟨"o4", "u1", 100, OrderStatus.PENDING, false⟩,
        ⟨"o5", "u1", 100, OrderStatus.PENDING, false⟩],
       [⟨"p5", "o5", 100, PaymentMethod.CLICK, PaymentStatus.SUCCESS,
         some "9", false⟩], [], []⟩ "f1"
      ⟨7, 2, 3, "nope", 100, 0, 0, "", "t", "s"⟩).2.error = -5 ∧
    (handlePrepare ⟨"k", fun _ => "s"⟩
      ⟨[⟨"o3", "u1", 100, OrderStatus.PAID, false⟩,
        ⟨"o4", "u1", 100, OrderStatus.PENDING, false⟩,
        ⟨"o5", "u1", 100, OrderStatus.PENDING, false⟩],
       [⟨"p5", "o5", 100, PaymentMethod.CLICK, PaymentStatus.SUCCESS,
         some "9", false⟩], [], []⟩ "f1"
      ⟨7, 2, 3, "o3", 100, 0, 0, "", "t", "s"⟩).2.error = -4 ∧
    (handlePrepare ⟨"k", fun _ => "s"⟩
      ⟨[⟨"o3", "u1", 100, OrderStatus.PAID, false⟩,
        ⟨"o4", "u1", 100, OrderStatus.PENDING, false⟩,
        ⟨"o5", "u1", 100, OrderStatus.PENDING, false⟩],
       [⟨"p5", "o5", 100, PaymentMethod.CLICK, PaymentStatus.SUCCESS,
         some "9", false⟩], [], []⟩ "f1"
      ⟨7, 2, 3, "o4", 50, 0, 0, "", "t", "s"⟩).2.error = -2 ∧
    (handlePrepare ⟨"k", fun _ => "s"⟩
      ⟨[⟨"o3", "u1", 100, OrderStatus.PAID, false⟩,
        ⟨"o4", "u1", 100, OrderStatus.PENDING, false⟩,
        ⟨"o5", "u1", 100, OrderStatus.PENDING, false⟩],
       [⟨"p5", "o5", 100, PaymentMethod.CLICK, PaymentStatus.SUCCESS,
         some "9", false⟩], [], []⟩ "f1"
      ⟨7, 2, 3, "o5", 100, 0, 0, "", "t", "s"⟩).2.error = -4 := by
  refine ⟨?_, ?_, ?_, ?_, ?_⟩
  · rw [click_prepare_rejection_codes.1 ⟨"k", fun _ => "s"⟩
      ⟨[⟨"o3", "u1", 100, OrderStatus.PAID, false⟩,
        ⟨"o4", "u1", 100, OrderStatus.PENDING, false⟩,
        ⟨"o5", "u1", 100, OrderStatus.PENDING, false⟩],
       [⟨"p5", "o5", 100, PaymentMethod.CLICK, PaymentStatus.SUCCESS,
         some "9", false⟩], [], []⟩ "f1"
      ⟨7, 2, 3, "o4", 100, 0, 0, "", "t", "x"⟩ (by decide)]
  · rw [click_prepare_rejection_codes.2.1 ⟨"k", fun _ => "s"⟩
      ⟨[⟨"o3", "u1", 100, OrderStatus.PAID, false⟩,
        ⟨"o4", "u1", 100, OrderStatus.PENDING, false⟩,
        ⟨"o5", "u1", 100, OrderStatus.PENDING, false⟩],
       [⟨"p5", "o5", 100, PaymentMethod.CLICK, PaymentStatus.SUCCESS,
         some "9", false⟩], [], []⟩ "f1"
      ⟨7, 2, 3, "nope", 100, 0, 0, "", "t", "s"⟩ (by decide) (by decide)]
  · rw [click_prepare_rejection_codes.2.2.1 ⟨"k", fun _ => "s"⟩
      ⟨[⟨"o3", "u1", 100, OrderStatus.PAID, false⟩,
        ⟨"o4", "u1", 100, OrderStatus.PENDING, false⟩,
        ⟨"o5", "u1", 100, OrderStatus.PENDING, false⟩],
       [⟨"p5", "o5", 100, PaymentMethod.CLICK, PaymentStatus.SUCCESS,
         some "9", false⟩], [], []⟩ "f1"
      ⟨7, 2, 3, "o3", 100, 0, 0, "", "t", "s"⟩
      ⟨"o3", "u1", 100, OrderStatus.PAID, false⟩
      (by decide) (by decide) (by decide)]
  · rw [click_prepare_rejection_codes.2.2.2.1 ⟨"k", fun _ => "s"⟩
      ⟨[⟨"o3", "u1", 100, OrderStatus.PAID, false⟩,
        ⟨"o4", "u1", 100, OrderStatus.PENDING, false⟩,
        ⟨"o5", "u1", 100, OrderStatus.PENDING, false⟩],
       [⟨"p5", "o5", 100, PaymentMethod.CLICK, PaymentStatus.SUCCESS,
         some "9", false⟩], [], []⟩ "f1"
      ⟨7, 2, 3, "o4", 50, 0, 0, "", "t", "s"⟩
      ⟨"o4", "u1", 100, OrderStatus.PENDING, false⟩
      (by decide) (by decide) (by decide) (by norm_num)]
  · rw [click_prepare_rejection_codes.2.2.2.2 ⟨"k", fun _ => "s"⟩
      ⟨[⟨"o3", "u1", 100, OrderStatus.PAID, false⟩,
        ⟨"o4", "u1", 100, OrderStatus.PENDING, false⟩,
        ⟨"o5", "u1", 100, OrderStatus.PENDING, false⟩],
       [⟨"p5", "o5", 100, PaymentMethod.CLICK, PaymentStatus.SUCCESS,
         some "9", false⟩], [], []⟩ "f1"
      ⟨7, 2, 3, "o5", 100, 0, 0, "", "t", "s"⟩
      ⟨"o5", "u1", 100, OrderStatus.PENDING, false⟩
      ⟨"p5", "o5", 100, PaymentMethod.CLICK, PaymentStatus.SUCCESS,
        some "9", false⟩
      (by decide) (by decide) (by decide) (by norm_num) (by decide)
      (by decide)]

/-- C10: the signature check performed by handleComplete depends only on
click_trans_id, service_id, merchant_trans_id, amount, action, sign_time,
sign_string and the server secret: two COMPLETE requests differing only in
merchant_prepare_id, click_paydoc_id, error, or error_note verify
identically, so the provider error code is not covered by the signature. -/
theorem click_signature_scope (env : ClickEnv)
    (a b : ClickCompleteRequest)
    (h1 : a.click_trans_id = b.click_trans_id)
    (h2 : a.service_id = b.service_id)
    (h3 : a.merchant_trans_id = b.merchant_trans_id)
    (h4 : a.amount = b.amount)
    (h5 : a.action = b.action)
    (h6 : a.sign_time = b.sign_time)
    (h7 : a.sign_string = b.sign_string) :
    completeVerify env a = completeVerify env b := by
  unfold completeVerify verifySignature signData
  rw [h1, h2, h3, h4, h5, h6, h7]

/-- Witness for C10: two requests differing in click_paydoc_id,
merchant_prepare_id, error and error_note verify identically. -/
theorem click_signature_scope_witness :
    completeVerify ⟨"k", fun _ => "s"⟩
      ⟨7, 2, 3, "o1", 5, 100, 1, 0, "", "t", "s"⟩ =
    completeVerify ⟨"k", fun _ => "s"⟩
      ⟨7, 2, 99, "o1", 42, 100, 1, -9, "provider failure", "t", "s"⟩ :=
  click_signature_scope ⟨"k", fun _ => "s"⟩
    ⟨7, 2, 3, "o1", 5, 100, 1, 0, "", "t", "s"⟩
    ⟨7, 2, 99, "o1", 42, 100, 1, -9, "provider failure", "t", "s"⟩
    rfl rfl rfl rfl rfl rfl rfl

/-- C4 counterexample: COMPLETE performs no amount check.  On an existing
PENDING Order with total 100, a COMPLETE whose amount is 1000000 (off by far
more than 0.01) is accepted with error = 0 and the store is mutated. -/
theorem click_amount_tolerance_counterexample :
    |(100 : ℚ) - 1000000| > 1 / 100 ∧
    findOrder
      ⟨[⟨"o1", "u1", 100, OrderStatus.PENDING, false⟩],
       [⟨"ab", "o1", 100, PaymentMethod.CLICK, PaymentStatus.PENDING,
         some "7", false⟩], [], []⟩ "o1" =
      some ⟨"o1", "u1", 100, OrderStatus.PENDING, false⟩ ∧
    (handleComplete ⟨"k", fun _ => "s"⟩
      ⟨[⟨"o1", "u1", 100, OrderStatus.PENDING, false⟩],
       [⟨"ab", "o1", 100, PaymentMethod.CLICK, PaymentStatus.PENDING,
         some "7", false⟩], [], []⟩
      ⟨7, 2, 3, "o1", 5, 1000000, 1, 0, "", "t", "s"⟩).2.error = 0 ∧
    ((handleComplete ⟨"k", fun _ => "s"⟩
      ⟨[⟨"o1", "u1", 100, OrderStatus.PENDING, false⟩],
       [⟨"ab", "o1", 100, PaymentMethod.CLICK, PaymentStatus.PENDING,
         some "7", false⟩], [], []⟩
      ⟨7, 2, 3, "o1", 5, 1000000, 1, 0, "", "t", "s"⟩).1.payments.map
        Payment.status) = [PaymentStatus.SUCCESS] := by
  have h := handleComplete_success_run ⟨"k", fun _ => "s"⟩
    ⟨[⟨"o1", "u1", 100, OrderStatus.PENDING, false⟩],
     [⟨"ab", "o1", 100, PaymentMethod.CLICK, PaymentStatus.PENDING,
       some "7", false⟩], [], []⟩
    ⟨7, 2, 3, "o1", 5, 1000000, 1, 0, "", "t", "s"⟩
    ⟨"o1", "u1", 100, OrderStatus.PENDING, false⟩
    ⟨"ab", "o1", 100, PaymentMethod.CLICK, PaymentStatus.PENDING,
      some "7", false⟩
    (by decide) (by decide) (by decide) (by decide) (by decide) (by decide)
  refine ⟨by norm_num, by decide, by rw [h], by rw [h]; rfl⟩

/-- C4 amended: the 0.01 amount tolerance is enforced by PREPARE only
(error -2 exactly when the delta exceeds 0.01, with no store change);
COMPLETE performs no amount check. -/
theorem click_prepare_amount_tolerance (env : ClickEnv) (db : DB)
    (fid : String) (dto : ClickPrepareRequest) (order : Order)
    (hsig : prepareVerify env dto = true)
    (hord : findOrder db dto.merchant_trans_id = some order)
    (hst : order.status = OrderStatus.PENDING) :
    ((handlePrepare env db fid dto).2.error = -2 ↔
      |order.total - dto.amount| > 1 / 100) ∧
    (|order.total - dto.amount| > 1 / 100 →
      handlePrepare env db fid dto =
        (db, ⟨dto.click_trans_id, dto.merchant_trans_id, some 0, -2,
          "Incorrect amount"⟩)) := by
  constructor
  · constructor
    · intro he
      by_contra hle
      cases hp : paymentOfOrder db order.id with
      | none =>
          have hz : (handlePrepare env db fid dto).2.error = 0 := by
            unfold handlePrepare
            rw [handlePrepareWrites_success_fresh env db fid dto order hsig
              hord hst hle hp]
          have hcontr : (0 : Int) = -2 := hz.symm.trans he
          exact absurd hcontr (by decide)
      | some p =>
          by_cases hps : p.status = PaymentStatus.SUCCESS
          · have hz : (handlePrepare env db fid dto).2.error = -4 := by
              rw [handlePrepare_already_paid env db fid dto order p hsig hord
                hst hle hp hps]
            have hcontr : (-4 : Int) = -2 := hz.symm.trans he
            exact absurd hcontr (by decide)
          · have hz : (handlePrepare env db fid dto).2.error = 0 := by
              unfold handlePrepare
              rw [handlePrepareWrites_success_existing env db fid dto order p
                hsig hord hst hle hp hps]
            have hcontr : (0 : Int) = -2 := hz.symm.trans he
            exact absurd hcontr (by decide)
    · intro hgt
      rw [handlePrepare_bad_amount env db fid dto order hsig hord hst hgt]
  · intro hgt
    exact handlePrepare_bad_amount env db fid dto order hsig hord hst hgt

/-- Witness for the amended C4 at a concrete store: a delta of 50 is
rejected with -2. -/
theorem click_prepare_amount_tolerance_witness :
    (handlePrepare ⟨"k", fun _ => "s"⟩
      ⟨[⟨"o1", "u1", 100, OrderStatus.PENDING, false⟩], [], [], []⟩ "f1"
      ⟨7, 2, 3, "o1", 50, 0, 0, "", "t", "s"⟩).2.error = -2 :=
  (click_prepare_amount_tolerance ⟨"k", fun _ => "s"⟩
    ⟨[⟨"o1", "u1", 100, OrderStatus.PENDING, false⟩], [], [], []⟩ "f1"
    ⟨7, 2, 3, "o1", 50, 0, 0, "", "t", "s"⟩
    ⟨"o1", "u1", 100, OrderStatus.PENDING, false⟩
    (by decide) (by decide) (by decide)).1.mpr (by norm_num)

/-- C3 counterexample: the reconciliation path checkPaymentStatus does not
enforce the Payment state machine.  On a Payment whose status is SUCCESS,
a provider report of failed is applied as SUCCESS → FAILED instead of being
rejected. -/
theorem click_state_machine_counterexample :
    (⟨[⟨"o1", "u1", 100, OrderStatus.PAID, false⟩],
      [⟨"p1", "o1", 100, PaymentMethod.CLICK, PaymentStatus.SUCCESS,
        some "ext1", false⟩],
      [⟨"u1", "o1", some "p1", TransactionType.PAYMENT,
        TransactionStatus.SUCCESS, 100, "d", []⟩], []⟩ : DB).payments.map
      Payment.status = [PaymentStatus.SUCCESS] ∧
    (checkPaymentStatus
      ⟨[⟨"o1", "u1", 100, OrderStatus.PAID, false⟩],
       [⟨"p1", "o1", 100, PaymentMethod.CLICK, PaymentStatus.SUCCESS,
         some "ext1", false⟩],
       [⟨"u1", "o1", some "p1", TransactionType.PAYMENT,
         TransactionStatus.SUCCESS, 100, "d", []⟩], []⟩
      "ext1" ProviderCheck.failed).payments.map Payment.status =
      [PaymentStatus.FAILED] ∧
    checkPaymentStatus
      ⟨[⟨"o1", "u1", 100, OrderStatus.PAID, false⟩],
       [⟨"p1", "o1", 100, PaymentMethod.CLICK, PaymentStatus.SUCCESS,
         some "ext1", false⟩],
       [⟨"u1", "o1", some "p1", TransactionType.PAYMENT,
         TransactionStatus.SUCCESS, 100, "d", []⟩], []⟩
      "ext1" ProviderCheck.failed ≠
      ⟨[⟨"o1", "u1", 100, OrderStatus.PAID, false⟩],
       [⟨"p1", "o1", 100, PaymentMethod.CLICK, PaymentStatus.SUCCESS,
         some "ext1", false⟩],
       [⟨"u1", "o1", some "p1", TransactionType.PAYMENT,
         TransactionStatus.SUCCESS, 100, "d", []⟩], []⟩ := by
  decide

/-- C3 amended: only cancelPayment enforces the transition discipline
(rejecting any Payment not in SUCCESS, so SUCCESS→CANCELLED is its sole
transition); the reconciliation paths checkPaymentStatus and
checkInvoiceStatus instead overwrite the Payment with the provider-reported
status whatever the current state, e.g. applying SUCCESS→FAILED or
invoice-driven →SUCCESS without rejection. -/
theorem click_state_machine_amended :
    (∀ (db : DB) (pid : String) (ok : Bool) (now : Nat) (p : Payment),
      findPaymentForCancel db pid = some p →
      p.status ≠ PaymentStatus.SUCCESS →
      cancelPayment db pid ok now =
        (db, Except.error
          (SvcError.badRequest "Can only cancel successful payments"))) ∧
    (∀ (db : DB) (pid : String) (p : Payment),
      findPaymentByExt db pid = some p →
      p.status ≠ PaymentStatus.FAILED →
      checkPaymentStatus db pid ProviderCheck.failed =
        updatePaymentStatus db p.id PaymentStatus.FAILED p.orderId) ∧
    (∀ (db : DB) (inv : Int) (p : Payment),
      findPaymentByExt db (toString inv) = some p →
      (checkInvoiceStatus db inv true 1).1 =
        updatePaymentStatus db p.id PaymentStatus.SUCCESS p.orderId) := by
  refine ⟨?_, ?_, ?_⟩
  · intro db pid ok now p hfind hns
    unfold cancelPayment cancelPaymentWrites
    simp only [hfind]
    simp [hns]
    rfl
  · intro db pid p hfind hne
    unfold checkPaymentStatus
    simp only [hfind]
    simp [hne]
  · intro db inv p hfind
    unfold checkInvoiceStatus
    simp only [hfind]
    simp

/-- Witness for the amended C3 at concrete stores: a PENDING payment cannot
be cancelled; a SUCCESS payment is force-flipped to FAILED by
checkPaymentStatus; a FAILED invoice payment is force-flipped to SUCCESS by
checkInvoiceStatus. -/
theorem click_state_machine_amended_witness :
    cancelPayment
      ⟨[⟨"o1", "u1", 100, OrderStatus.PENDING, false⟩],
       [⟨"p1", "o1", 100, PaymentMethod.CLICK, PaymentStatus.PENDING,
         some "ext1", false⟩], [], []⟩ "ext1" true 5 =
      (⟨[⟨"o1", "u1", 100, OrderStatus.PENDING, false⟩],
        [⟨"p1", "o1", 100, PaymentMethod.CLICK, PaymentStatus.PENDING,
          some "ext1", false⟩], [], []⟩,
       Except.error
         (SvcError.badRequest "Can only cancel successful payments")) ∧
    checkPaymentStatus
      ⟨[⟨"o2", "u1", 100, OrderStatus.PAID, false⟩],
       [⟨"p2", "o2", 100, PaymentMethod.CLICK, PaymentStatus.SUCCESS,
         some "ext2", false⟩], [], []⟩ "ext2" ProviderCheck.failed =
      updatePaymentStatus
        ⟨[⟨"o2", "u1", 100, OrderStatus.PAID, false⟩],
         [⟨"p2", "o2", 100, PaymentMethod.CLICK, PaymentStatus.SUCCESS,
           some "ext2", false⟩], [], []⟩ "p2" PaymentStatus.FAILED "o2" ∧
    (checkInvoiceStatus
      ⟨[⟨"o3", "u1", 100, OrderStatus.CANCELLED, false⟩],
       [⟨"p3", "o3", 100, PaymentMethod.CLICK, PaymentStatus.FAILED,
         some "8", false⟩], [], []⟩ 8 true 1).1 =
      updatePaymentStatus
        ⟨[⟨"o3", "u1", 100, OrderStatus.CANCELLED, false⟩],
         [⟨"p3", "o3", 100, PaymentMethod.CLICK, PaymentStatus.FAILED,
           some "8", false⟩], [], []⟩ "p3" PaymentStatus.SUCCESS "o3" := by
  refine ⟨?_, ?_, ?_⟩
  · exact click_state_machine_amended.1
      ⟨[⟨"o1", "u1", 100, OrderStatus.PENDING, false⟩],
       [⟨"p1", "o1", 100, PaymentMethod.CLICK, PaymentStatus.PENDING,
         some "ext1", false⟩], [], []⟩ "ext1" true 5
      ⟨"p1", "o1", 100, PaymentMethod.CLICK, PaymentStatus.PENDING,
        some "ext1", false⟩ (by decide) (by decide)
  · exact click_state_machine_amended.2.1
      ⟨[⟨"o2", "u1", 100, OrderStatus.PAID, false⟩],
       [⟨"p2", "o2", 100, PaymentMethod.CLICK, PaymentStatus.SUCCESS,
         some "ext2", false⟩], [], []⟩ "ext2"
      ⟨"p2", "o2", 100, PaymentMethod.CLICK, PaymentStatus.SUCCESS,
        some "ext2", false⟩ (by decide) (by decide)
  · exact click_state_machine_amended.2.2
      ⟨[⟨"o3", "u1", 100, OrderStatus.CANCELLED, false⟩],
       [⟨"p3", "o3", 100, PaymentMethod.CLICK, PaymentStatus.FAILED,
         some "8", false⟩], [], []⟩ 8
      ⟨"p3", "o3", 100, PaymentMethod.CLICK, PaymentStatus.FAILED,
        some "8", false⟩ (by decide)

/-- C5: evidence that the PREPARE path is not one atomic unit.  On a fresh
PENDING order, a successful PREPARE issues two separate write units (the
Payment upsert and the PENDING Transaction insert, with no transaction
wrapper in the source); stopping after the first unit leaves an observable
partial state: the Payment row exists but no ledger row was written, a
state equal to neither the initial nor the final store. -/
theorem click_prepare_not_atomic :
    (handlePrepareWrites ⟨"k", fun _ => "s"⟩
      ⟨[⟨"o1", "u1", 100, OrderStatus.PENDING, false⟩], [], [], []⟩ "ab"
      ⟨7, 2, 3, "o1", 100, 0, 0, "", "t", "s"⟩).2.error = 0 ∧
    (handlePrepareWrites ⟨"k", fun _ => "s"⟩
      ⟨[⟨"o1", "u1", 100, OrderStatus.PENDING, false⟩], [], [], []⟩ "ab"
      ⟨7, 2, 3, "o1", 100, 0, 0, "", "t", "s"⟩).1.length = 2 ∧
    (runUnits ⟨[⟨"o1", "u1", 100, OrderStatus.PENDING, false⟩], [], [], []⟩
      ((handlePrepareWrites ⟨"k", fun _ => "s"⟩
        ⟨[⟨"o1", "u1", 100, OrderStatus.PENDING, false⟩], [], [], []⟩ "ab"
        ⟨7, 2, 3, "o1", 100, 0, 0, "", "t", "s"⟩).1.take 1)).payments.length
      = 1 ∧
    (runUnits ⟨[⟨"o1", "u1", 100, OrderStatus.PENDING, false⟩], [], [], []⟩
      ((handlePrepareWrites ⟨"k", fun _ => "s"⟩
        ⟨[⟨"o1", "u1", 100, OrderStatus.PENDING, false⟩], [], [], []⟩ "ab"
        ⟨7, 2, 3, "o1", 100, 0, 0, "", "t", "s"⟩).1.take 1)).transactions
      = [] ∧
    runUnits ⟨[⟨"o1", "u1", 100, OrderStatus.PENDING, false⟩], [], [], []⟩
      ((handlePrepareWrites ⟨"k", fun _ => "s"⟩
        ⟨[⟨"o1", "u1", 100, OrderStatus.PENDING, false⟩], [], [], []⟩ "ab"
        ⟨7, 2, 3, "o1", 100, 0, 0, "", "t", "s"⟩).1.take 1) ≠
      ⟨[⟨"o1", "u1", 100, OrderStatus.PENDING, false⟩], [], [], []⟩ ∧
    runUnits ⟨[⟨"o1", "u1", 100, OrderStatus.PENDING, false⟩], [], [], []⟩
      ((handlePrepareWrites ⟨"k", fun _ => "s"⟩
        ⟨[⟨"o1", "u1", 100, OrderStatus.PENDING, false⟩], [], [], []⟩ "ab"
        ⟨7, 2, 3, "o1", 100, 0, 0, "", "t", "s"⟩).1.take 1) ≠
      (handlePrepare ⟨"k", fun _ => "s"⟩
        ⟨[⟨"o1", "u1", 100, OrderStatus.PENDING, false⟩], [], [], []⟩ "ab"
        ⟨7, 2, 3, "o1", 100, 0, 0, "", "t", "s"⟩).1 := by
  have hw := handlePrepareWrites_success_fresh ⟨"k", fun _ => "s"⟩
    ⟨[⟨"o1", "u1", 100, OrderStatus.PENDING, false⟩], [], [], []⟩ "ab"
    ⟨7, 2, 3, "o1", 100, 0, 0, "", "t", "s"⟩
    ⟨"o1", "u1", 100, OrderStatus.PENDING, false⟩
    (by decide) (by decide) (by decide) (by norm_num) (by decide)
  have hfull : handlePrepare ⟨"k", fun _ => "s"⟩
      ⟨[⟨"o1", "u1", 100, OrderStatus.PENDING, false⟩], [], [], []⟩ "ab"
      ⟨7, 2, 3, "o1", 100, 0, 0, "", "t", "s"⟩ =
      (runUnits ⟨[⟨"o1", "u1", 100, OrderStatus.PENDING, false⟩], [], [], []⟩
        [prepareUpsertUnit ⟨"o1", "u1", 100, OrderStatus.PENDING, false⟩ "ab"
          ⟨7, 2, 3, "o1", 100, 0, 0, "", "t", "s"⟩,
         prepareTxUnit ⟨"o1", "u1", 100, OrderStatus.PENDING, false⟩ "ab"
          ⟨7, 2, 3, "o1", 100, 0, 0, "", "t", "s"⟩],
       ⟨7, "o1", clickMerchantId "ab", 0, "Success"⟩) := by
    unfold handlePrepare
    rw [hw]
  refine ⟨by rw [hw], by rw [hw]; rfl, ?_, ?_, ?_, ?_⟩
  · rw [hw]
    decide
  · rw [hw]
    decide
  · rw [hw]
    decide
  · rw [hw, hfull]
    decide

/-- C6: cancelPayment rejects (with no state change) any Payment whose
status is not SUCCESS; when the provider reversal fails the whole operation
fails with no local change; on provider confirmation it performs, in one
atomic unit, Payment → CANCELLED with the soft-delete marker, Order →
CANCELLED, and exactly one appended REFUND Transaction for the Payment's
full amount. -/
theorem click_cancel_reversal :
    (∀ (db : DB) (pid : String) (ok : Bool) (now : Nat) (p : Payment),
      findPaymentForCancel db pid = some p →
      p.status ≠ PaymentStatus.SUCCESS →
      cancelPayment db pid ok now =
        (db, Except.error
          (SvcError.badRequest "Can only cancel successful payments"))) ∧
    (∀ (db : DB) (pid : String) (now : Nat) (p : Payment),
      findPaymentForCancel db pid = some p →
      p.status = PaymentStatus.SUCCESS →
      cancelPayment db pid false now =
        (db, Except.error (SvcError.badRequest
          "Failed to cancel payment. Check Click conditions."))) ∧
    (∀ (db : DB) (pid : String) (now : Nat) (p : Payment),
      findPaymentForCancel db pid = some p →
      p.status = PaymentStatus.SUCCESS →
      (cancelPaymentWrites db pid true now).1.length = 1 ∧
      cancelPayment db pid true now =
        ({ db with
           payments := db.payments.map (fun q =>
             if q.id == p.id then
               { q with status := PaymentStatus.CANCELLED, deleted := true }
             else q),
           orders := db.orders.map (fun o =>
             if o.id == p.orderId then
               { o with status := OrderStatus.CANCELLED }
             else o),
           transactions := db.transactions ++
             [refundTx (orderUserId db p.orderId) p pid now] },
         Except.ok ()) ∧
      (refundTx (orderUserId db p.orderId) p pid now).type =
        TransactionType.REFUND ∧
      (refundTx (orderUserId db p.orderId) p pid now).amount = p.amount) := by
  refine ⟨?_, ?_, ?_⟩
  · intro db pid ok now p hfind hns
    unfold cancelPayment cancelPaymentWrites
    simp only [hfind]
    simp [hns]
    rfl
  · intro db pid now p hfind hs
    unfold cancelPayment cancelPaymentWrites
    simp only [hfind]
    simp [hs]
    rfl
  · intro db pid now p hfind hs
    have hw : cancelPaymentWrites db pid true now =
        ([fun d =>
            let d1 := { d with payments := d.payments.map (fun q =>
              if q.id == p.id then
                { q with status := PaymentStatus.CANCELLED, deleted := true }
              else q) }
            let d2 := setOrderStatus d1 p.orderId OrderStatus.CANCELLED
            addTransaction d2
              (refundTx (orderUserId db p.orderId) p pid now)],
         Except.ok ()) := by
      unfold cancelPaymentWrites
      simp only [hfind]
      simp [hs]
    refine ⟨by rw [hw]; rfl, ?_, rfl, rfl⟩
    unfold cancelPayment
    rw [hw]
    rfl

/-- Witness for C6 at concrete stores: non-SUCCESS rejection, provider
failure, and the confirmed reversal. -/
theorem click_cancel_reversal_witness :
    cancelPayment
      ⟨[⟨"o1", "u1", 100, OrderStatus.PENDING, false⟩],
       [⟨"p1", "o1", 100, PaymentMethod.CLICK, PaymentStatus.PENDING,
         some "e1", false⟩], [], []⟩ "e1" true 5 =
      (⟨[⟨"o1", "u1", 100, OrderStatus.PENDING, false⟩],
        [⟨"p1", "o1", 100, PaymentMethod.CLICK, PaymentStatus.PENDING,
          some "e1", false⟩], [], []⟩,
       Except.error
         (SvcError.badRequest "Can only cancel successful payments")) ∧
    cancelPayment
      ⟨[⟨"o2", "u1", 100, OrderStatus.PAID, false⟩],
       [⟨"p2", "o2", 100, PaymentMethod.CLICK, PaymentStatus.SUCCESS,
         some "e2", false⟩], [], []⟩ "e2" false 5 =
      (⟨[⟨"o2", "u1", 100, OrderStatus.PAID, false⟩],
        [⟨"p2", "o2", 100, PaymentMethod.CLICK, PaymentStatus.SUCCESS,
          some "e2", false⟩], [], []⟩,
       Except.error (SvcError.badRequest
         "Failed to cancel payment. Check Click conditions.")) ∧
    (cancelPayment
      ⟨[⟨"o2", "u1", 100, OrderStatus.PAID, false⟩],
       [⟨"p2", "o2", 100, PaymentMethod.CLICK, PaymentStatus.SUCCESS,
         some "e2", false⟩], [], []⟩ "e2" true 5).2 = Except.ok () := by
  refine ⟨?_, ?_, ?_⟩
  · exact click_cancel_reversal.1
      ⟨[⟨"o1", "u1", 100, OrderStatus.PENDING, false⟩],
       [⟨"p1", "o1", 100, PaymentMethod.CLICK, PaymentStatus.PENDING,
         some "e1", false⟩], [], []⟩ "e1" true 5
      ⟨"p1", "o1", 100, PaymentMethod.CLICK, PaymentStatus.PENDING,
        some "e1", false⟩ (by decide) (by decide)
  · exact click_cancel_reversal.2.1
      ⟨[⟨"o2", "u1", 100, OrderStatus.PAID, false⟩],
       [⟨"p2", "o2", 100, PaymentMethod.CLICK, PaymentStatus.SUCCESS,
         some "e2", false⟩], [], []⟩ "e2" 5
      ⟨"p2", "o2", 100, PaymentMethod.CLICK, PaymentStatus.SUCCESS,
        some "e2", false⟩ (by decide) (by decide)
  · rw [(click_cancel_reversal.2.2
      ⟨[⟨"o2", "u1", 100, OrderStatus.PAID, false⟩],
       [⟨"p2", "o2", 100, PaymentMethod.CLICK, PaymentStatus.SUCCESS,
         some "e2", false⟩], [], []⟩ "e2" 5
      ⟨"p2", "o2", 100, PaymentMethod.CLICK, PaymentStatus.SUCCESS,
        some "e2", false⟩ (by decide) (by decide)).2.1]

/-- C9: a card created by requestCardToken starts inactive; paymentWithToken
with a token that has no active, non-deleted card of the calling user is
rejected with the documented message, leaving the store untouched (so no
Payment and no Transaction is created); and every run of paymentWithToken
that succeeds found a card of the user with that token that was active and
not deleted. -/
theorem click_card_vault_gating :
    (∀ (db : DB) (uid cn : String) (temp : Bool) (tr : TokenResult)
        (fid tok : String),
      tr.success = true → tr.cardToken = some tok →
      (requestCardToken db uid cn temp tr fid).1.cards =
        db.cards ++ [⟨fid, uid, tok, "", "****" ++ lastFour cn,
          tr.phoneNumber, temp, false, none, false⟩] ∧
      ((requestCardToken db uid cn temp tr fid).1.cards.getLast?).map
        UserCard.isActive = some false) ∧
    (∀ (db : DB) (uid oid tok : String) (amt : ℚ) (pr : TokenPayResult)
        (fid : String) (now : Nat) (order : Order),
      db.orders.find? (fun o =>
        o.id == oid && o.userId == uid && !o.deleted) = some order →
      paymentOfOrder db order.id = none →
      order.status = OrderStatus.PENDING →
      findActiveCard db uid tok = none →
      paymentWithToken db uid oid tok amt pr fid now =
        (db, Except.error
          (SvcError.badRequest "Card token not found or not verified"))) ∧
    (∀ (db : DB) (uid oid tok : String) (amt : ℚ) (pr : TokenPayResult)
        (fid : String) (now : Nat),
      (paymentWithToken db uid oid tok amt pr fid now).2 = Except.ok () →
      ∃ c ∈ db.cards, c.userId = uid ∧ c.cardToken = tok ∧
        c.isActive = true ∧ c.deleted = false) := by
  refine ⟨?_, ?_, ?_⟩
  · intro db uid cn temp tr fid tok hsucc htok
    have hreq : requestCardToken db uid cn temp tr fid =
        ({ db with cards := db.cards ++ [⟨fid, uid, tok, "",
            "****" ++ lastFour cn, tr.phoneNumber, temp, false, none,
            false⟩] }, Except.ok tok) := by
      unfold requestCardToken
      rw [hsucc, htok]
      simp
    rw [hreq]
    exact ⟨rfl, by rw [List.getLast?_concat]; rfl⟩
  · intro db uid oid tok amt pr fid now order hord hnopay hpend hcard
    unfold paymentWithToken
    rw [hord]
    simp only [hnopay]
    simp [hpend, hcard]
  · intro db uid oid tok amt pr fid now h
    unfold paymentWithToken at h
    split at h
    · simp at h
    · split at h
      · simp at h
      · split at h
        · simp at h
        · split at h
          · simp at h
          · rename_i userCard hcard
            have hcard2 : db.cards.find? (fun c =>
                c.userId == uid && c.cardToken == tok && c.isActive &&
                  !c.deleted) = some userCard := hcard
            have hmem : userCard ∈ db.cards :=
              List.mem_of_find?_eq_some hcard2
            have hpred := List.find?_some hcard2
            simp only [Bool.and_eq_true, beq_iff_eq,
              Bool.not_eq_true'] at hpred
            exact ⟨userCard, hmem, hpred.1.1.1, hpred.1.1.2, hpred.1.2,
              hpred.2⟩

/-- Witness for C9 at concrete stores: the freshly created card is
inactive; payment with an unverified (inactive) card is rejected leaving
the store unchanged; a successful token payment implies an active card
existed. -/
theorem click_card_vault_gating_witness :
    ((requestCardToken ⟨[], [], [], []⟩ "u1" "8600123412341234" false
      ⟨true, some "tok", none⟩ "c1").1.cards.getLast?).map
      UserCard.isActive = some false ∧
    paymentWithToken
      ⟨[⟨"o1", "u1", 100, OrderStatus.PENDING, false⟩], [], [],
       [⟨"c1", "u1", "tok", "", "****1234", none, false, false, none,
         false⟩]⟩ "u1" "o1" "tok" 100 ⟨true, 1, some 55⟩ "ab" 1 =
      (⟨[⟨"o1", "u1", 100, OrderStatus.PENDING, false⟩], [], [],
        [⟨"c1", "u1", "tok", "", "****1234", none, false, false, none,
          false⟩]⟩,
       Except.error
         (SvcError.badRequest "Card token not found or not verified")) ∧
    (∃ c ∈ (⟨[⟨"o2", "u1", 100, OrderStatus.PENDING, false⟩], [], [],
        [⟨"c2", "u1", "tok2", "8600123412341234", "****1234", none, false,
          true, none, false⟩]⟩ : DB).cards,
      c.userId = "u1" ∧ c.cardToken = "tok2" ∧ c.isActive = true ∧
        c.deleted = false) := by
  refine ⟨?_, ?_, ?_⟩
  · exact (click_card_vault_gating.1 ⟨[], [], [], []⟩ "u1"
      "8600123412341234" false ⟨true, some "tok", none⟩ "c1" "tok"
      (by decide) (by decide)).2
  · exact click_card_vault_gating.2.1
      ⟨[⟨"o1", "u1", 100, OrderStatus.PENDING, false⟩], [], [],
       [⟨"c1", "u1", "tok", "", "****1234", none, false, false, none,
         false⟩]⟩ "u1" "o1" "tok" 100 ⟨true, 1, some 55⟩ "ab" 1
      ⟨"o1", "u1", 100, OrderStatus.PENDING, false⟩
      (by decide) (by decide) (by decide) (by decide)
  · exact click_card_vault_gating.2.2
      ⟨[⟨"o2", "u1", 100, OrderStatus.PENDING, false⟩], [], [],
       [⟨"c2", "u1", "tok2", "8600123412341234", "****1234", none, false,
         true, none, false⟩]⟩ "u1" "o2" "tok2" 100 ⟨true, 1, some 55⟩
      "ab" 1 (by rfl)
